import Mathlib

/-!
Shallow embedding of the fio-qa disk-benchmark reporting tool (main.go):
the raw fio measurement model, the metric extraction performed by `runTest`,
the cross-run aggregation shared by `saveResultsToJSON` and `displaySummary`,
and the two report renderings. Go `float64` fields are modelled as rationals,
Go maps as association lists, and the external effects of `runTest` (running
the fio command, parsing its temporary JSON output file, deleting that file)
as explicit outcome parameters plus a deletion flag in the result.
-/

namespace FioQA

/-- Latency statistics in nanoseconds (Go struct `FioLatNs`); the
percentile map is modelled as an association list. -/
structure FioLatNs where
  min : ℚ
  max : ℚ
  mean : ℚ
  stddev : ℚ
  percentile : List (String × ℚ)
deriving DecidableEq

/-- Completion-latency statistics in nanoseconds (Go struct `FioClat`). -/
structure FioClat where
  min : ℚ
  max : ℚ
  mean : ℚ
  stddev : ℚ
  percentile : List (String × ℚ)
deriving DecidableEq

/-- Sync statistics (Go struct `FioSync`). -/
structure FioSync where
  latNs : FioLatNs
deriving DecidableEq

/-- Read- or write-direction statistics (Go struct `FioIO`; renamed here
because the embedding avoids identifiers ending in the letters IO). -/
structure FioIOStats where
  iops : ℚ
  bwBytes : ℚ
  bwMean : ℚ
  bwMin : ℚ
  bwMax : ℚ
  bwDev : ℚ
  ioKBytes : ℚ
  runtime : ℚ
  slat : FioLatNs
  clat : FioClat
  latNs : FioLatNs
  iopsMin : ℚ
  iopsMax : ℚ
  iopsMean : ℚ
  iopsStddev : ℚ
deriving DecidableEq

/-- Result of a single fio job (Go struct `FioJobResult`). -/
structure FioJobResult where
  jobName : String
  read : FioIOStats
  write : FioIOStats
  sync : FioSync
  usrCPU : ℚ
  sysCPU : ℚ
  ctx : ℤ
  majF : ℤ
  minF : ℤ
  ioDepths : List (String × ℚ)
  latBins : List (String × ℚ)
deriving DecidableEq

/-- Per-device utilization statistics (Go struct `FioDiskUtil`). -/
structure FioDiskUtil where
  name : String
  readIOs : ℤ
  writeIOs : ℤ
  readSectors : ℤ
  writeSectors : ℤ
  readMerges : ℤ
  writeMerges : ℤ
  readTicks : ℤ
  writeTicks : ℤ
  inQueue : ℤ
  util : ℚ
deriving DecidableEq

/-- Complete fio JSON output (Go struct `FioOutput`). -/
structure FioOutput where
  fioVersion : String
  jobs : List FioJobResult
  diskUtil : List FioDiskUtil
deriving DecidableEq

/-- Parsed results of one test (Go struct `TestResult`).  `duration` models
`time.Duration` as a rational number of nanoseconds; `error` models the
nilable Go `error` field. -/
structure TestResult where
  testName : String
  description : String
  readIOPS : ℚ
  writeIOPS : ℚ
  totalIOPS : ℚ
  readBWMBps : ℚ
  writeBWMBps : ℚ
  totalBWMBps : ℚ
  readLatencyUs : ℚ
  writeLatencyUs : ℚ
  avgLatencyUs : ℚ
  duration : ℚ
  status : String
  error : Option String
  fioJob : Option FioJobResult
  diskUtil : List FioDiskUtil
deriving DecidableEq

/-- The Go zero value of `TestResult` (what `var r TestResult` yields). -/
def TestResult.zero : TestResult where
  testName := ""
  description := ""
  readIOPS := 0
  writeIOPS := 0
  totalIOPS := 0
  readBWMBps := 0
  writeBWMBps := 0
  totalBWMBps := 0
  readLatencyUs := 0
  writeLatencyUs := 0
  avgLatencyUs := 0
  duration := 0
  status := ""
  error := none
  fioJob := none
  diskUtil := []

/-- The `TestResult` that `runTest` builds before doing anything else:
name, description and a FAILED status (main.go lines 208-212); the
duration is recorded on every path before the first early return. -/
def initResult (name description : String) (duration : ℚ) : TestResult :=
  { TestResult.zero with
      testName := name
      description := description
      status := "FAILED"
      duration := duration }

/-- Outcome of running the external fio command (`cmd.CombinedOutput`):
either success or an error message. -/
inductive CmdOutcome where
  | ok : CmdOutcome
  | err : String → CmdOutcome
deriving DecidableEq

/-- Outcome of reading and JSON-decoding the temporary output file
(`parseFioOutput`). -/
inductive ParseOutcome where
  | ok : FioOutput → ParseOutcome
  | err : String → ParseOutcome
deriving DecidableEq

/-- The metric-extraction block of `runTest` (main.go lines 242-270): when
the jobs list is non-empty, all metrics are taken from its first entry and
the status becomes PASSED; otherwise the result is returned unchanged. -/
def extractMetrics (result : TestResult) (fioOutput : FioOutput) : TestResult :=
  match fioOutput.jobs with
  | [] => result
  | job :: _ =>
    let readIOPS := job.read.iops
    let writeIOPS := job.write.iops
    let readBWMBps := job.read.bwBytes / 1024 / 1024
    let writeBWMBps := job.write.bwBytes / 1024 / 1024
    let readLatencyUs := job.read.latNs.mean / 1000
    let writeLatencyUs := job.write.latNs.mean / 1000
    { result with
        readIOPS := readIOPS
        writeIOPS := writeIOPS
        totalIOPS := readIOPS + writeIOPS
        readBWMBps := readBWMBps
        writeBWMBps := writeBWMBps
        totalBWMBps := readBWMBps + writeBWMBps
        readLatencyUs := readLatencyUs
        writeLatencyUs := writeLatencyUs
        avgLatencyUs :=
          if 0 < readIOPS ∧ 0 < writeIOPS then
            (readLatencyUs + writeLatencyUs) / 2
          else if 0 < readIOPS then
            readLatencyUs
          else
            writeLatencyUs
        fioJob := some job
        diskUtil := fioOutput.diskUtil
        status := "PASSED" }

/-- `runTest` (main.go lines 207-276) as a function of the outcomes of its
two external steps.  The second component records whether `os.Remove` was
reached for the temporary output file: the remove sits after the two early
`return result` statements, so it runs only when both steps succeed. -/
def runTest (name description : String) (duration : ℚ)
    (cmd : CmdOutcome) (parse : ParseOutcome) : TestResult × Bool :=
  let result := initResult name description duration
  match cmd with
  | .err msg =>
      ({ result with error := some ("fio command failed: " ++ msg) }, false)
  | .ok =>
    match parse with
    | .err msg =>
        ({ result with error := some ("failed to parse fio output: " ++ msg) }, false)
    | .ok fioOutput => (extractMetrics result fioOutput, true)

/-- `getPercentile` (main.go lines 462-467): look a label up in the raw
percentile map, defaulting to 0 when the label is absent. -/
def getPercentile (percentiles : List (String × ℚ)) (key : String) : ℚ :=
  match percentiles.lookup key with
  | some val => val
  | none => 0

/-- The fixed canonical list of percentile labels consulted by
`displayTestResult` (main.go lines 407-409). -/
def percentileLabels : List String :=
  ["1.000000", "5.000000", "10.000000", "20.000000", "30.000000", "40.000000",
   "50.000000", "60.000000", "70.000000", "80.000000", "90.000000", "95.000000",
   "99.000000", "99.500000", "99.900000", "99.950000", "99.990000"]

/-- The rows of the interactive percentile table (main.go lines 410-414):
each canonical label is looked up and a row is appended only when the raw
map contains it, with the value converted from ns to us. -/
def displayPercentileRows (percentile : List (String × ℚ)) : List (String × ℚ) :=
  percentileLabels.filterMap fun p =>
    match percentile.lookup p with
    | some val => some (p, val / 1000)
    | none => none

/-- A cell of the per-test row in the summary comparison table: either the
placeholder dash or a numeric value (rendered with fmt.Sprintf in Go). -/
inductive MetricCell where
  | dash : MetricCell
  | value : ℚ → MetricCell
deriving DecidableEq

/-- One row of the detailed comparison table in `displaySummary`
(main.go lines 945-969). -/
structure SummaryRow where
  testName : String
  statusMark : String
  iops : MetricCell
  bw : MetricCell
  lat : MetricCell
  duration : ℚ
deriving DecidableEq

/-- `displaySummary`'s per-result comparison row: FAILED rows carry the
cross mark and dashes in place of all three numeric metric columns. -/
def displaySummaryRow (r : TestResult) : SummaryRow where
  testName := r.testName
  statusMark := if r.status = "PASSED" then "✅" else "❌"
  iops := if r.status = "PASSED" then .value r.totalIOPS else .dash
  bw := if r.status = "PASSED" then .value r.totalBWMBps else .dash
  lat := if r.status = "PASSED" then .value r.avgLatencyUs else .dash
  duration := r.duration

/-- The failure block of the interactive per-test view (`displayTestResult`,
main.go lines 319-330): a status row marked with the cross, and an error
row only when the error is non-nil. -/
def displayFailedBlock (r : TestResult) : List (String × String) :=
  [("Status", "❌ " ++ r.status)] ++
    (match r.error with
     | some e => [("Error", e)]
     | none => [])

/-- Accumulator of the highlight scan shared by `saveResultsToJSON`
(main.go lines 663-681) and `displaySummary` (lines 977-994). -/
structure HighlightAcc where
  maxIOPS : TestResult
  maxBW : TestResult
  minLatency : TestResult
deriving DecidableEq

/-- Initial accumulator: zero-valued `TestResult`s, except that the
lowest-latency candidate starts from the sentinel 999999999. -/
def highlightInit : HighlightAcc where
  maxIOPS := TestResult.zero
  maxBW := TestResult.zero
  minLatency := { TestResult.zero with avgLatencyUs := 999999999 }

/-- One iteration of the highlight loop: only PASSED results are
considered; IOPS and bandwidth use a strict greater-than comparison, and
the latency candidate additionally requires a strictly positive value. -/
def highlightStep (acc : HighlightAcc) (r : TestResult) : HighlightAcc :=
  if r.status = "PASSED" then
    { maxIOPS := if acc.maxIOPS.totalIOPS < r.totalIOPS then r else acc.maxIOPS
      maxBW := if acc.maxBW.totalBWMBps < r.totalBWMBps then r else acc.maxBW
      minLatency :=
        if r.avgLatencyUs < acc.minLatency.avgLatencyUs ∧ 0 < r.avgLatencyUs then r
        else acc.minLatency }
  else acc

/-- The left-to-right highlight scan over the result sequence. -/
def findHighlights (results : List TestResult) : HighlightAcc :=
  results.foldl highlightStep highlightInit

/-- The highest-IOPS component of the highlight scan, taken on its own:
a PASSED result replaces the candidate exactly when its combined IOPS is
strictly greater. -/
def iopsStep (acc r : TestResult) : TestResult :=
  if r.status = "PASSED" ∧ acc.totalIOPS < r.totalIOPS then r else acc

/-- The lowest-latency component of the highlight scan, taken on its own:
a PASSED result replaces the candidate exactly when its combined latency
is strictly smaller and strictly positive. -/
def latStep (acc r : TestResult) : TestResult :=
  if r.status = "PASSED" ∧ (r.avgLatencyUs < acc.avgLatencyUs ∧ 0 < r.avgLatencyUs) then r
  else acc

/-- Overall summary statistics (Go struct `JSONSummary`); the passed and
failed counters come from the single loop at main.go lines 654-661, whose
else-branch counts every non-PASSED result as failed. -/
structure JSONSummary where
  totalTests : ℕ
  passed : ℕ
  failed : ℕ
  totalDuration : ℚ
deriving DecidableEq

/-- A single performance highlight (Go struct `JSONHighlight`). -/
structure JSONHighlight where
  testName : String
  value : ℚ
  unit : String
deriving DecidableEq

/-- The three performance highlights (Go struct `JSONPerformanceHighlights`). -/
structure JSONPerformanceHighlights where
  highestIOPS : JSONHighlight
  highestBandwidth : JSONHighlight
  lowestLatency : JSONHighlight
deriving DecidableEq

/-- Detailed IOPS metrics (Go struct `JSONIOPSDetail`). -/
structure JSONIOPSDetail where
  iops : ℚ
  min : ℚ
  max : ℚ
  avg : ℚ
  stddev : ℚ
deriving DecidableEq

/-- IOPS statistics (Go struct `JSONIOPSStats`). -/
structure JSONIOPSStats where
  read : JSONIOPSDetail
  write : JSONIOPSDetail
  total : ℚ
deriving DecidableEq

/-- Detailed bandwidth metrics (Go struct `JSONBandwidthDetail`). -/
structure JSONBandwidthDetail where
  bandwidthMBps : ℚ
  minMBps : ℚ
  maxMBps : ℚ
  avgMBps : ℚ
deriving DecidableEq

/-- Bandwidth statistics (Go struct `JSONBandwidthStats`). -/
structure JSONBandwidthStats where
  read : JSONBandwidthDetail
  write : JSONBandwidthDetail
  total : ℚ
deriving DecidableEq

/-- Latency metric values (Go struct `JSONLatencyMetric`). -/
structure JSONLatencyMetric where
  min : ℚ
  max : ℚ
  avg : ℚ
  stddev : ℚ
deriving DecidableEq

/-- Detailed latency metrics (Go struct `JSONLatencyDetail`). -/
structure JSONLatencyDetail where
  submissionLat : JSONLatencyMetric
  completionLat : JSONLatencyMetric
  totalLat : JSONLatencyMetric
deriving DecidableEq

/-- Latency statistics (Go struct `JSONLatencyStats`). -/
structure JSONLatencyStats where
  read : JSONLatencyDetail
  write : JSONLatencyDetail
deriving DecidableEq

/-- Latency percentiles (Go struct `JSONPercentiles`): seventeen plain
numeric fields, one per canonical label. -/
structure JSONPercentiles where
  p1 : ℚ
  p5 : ℚ
  p10 : ℚ
  p20 : ℚ
  p30 : ℚ
  p40 : ℚ
  p50 : ℚ
  p60 : ℚ
  p70 : ℚ
  p80 : ℚ
  p90 : ℚ
  p95 : ℚ
  p99 : ℚ
  p99_5 : ℚ
  p99_9 : ℚ
  p99_95 : ℚ
  p99_99 : ℚ
deriving DecidableEq

/-- The Go zero value of `JSONPercentiles`. -/
def JSONPercentiles.zero : JSONPercentiles :=
  ⟨0, 0, 0, 0, 0, 0, 0, 0, 0, 0, 0, 0, 0, 0, 0, 0, 0⟩

/-- CPU usage statistics (Go struct `JSONCPUUsage`). -/
structure JSONCPUUsage where
  userCPU : ℚ
  systemCPU : ℚ
  contextSwitches : ℤ
  majorFaults : ℤ
  minorFaults : ℤ
deriving DecidableEq

/-- Disk utilization entry (Go struct `JSONDiskUtil`). -/
structure JSONDiskUtil where
  device : String
  readIOs : ℤ
  writeIOs : ℤ
  readSectors : ℤ
  writeSectors : ℤ
  utilization : ℚ
deriving DecidableEq

/-- A single test result in the persisted document (Go struct
`JSONTestResult`); `error` models the Go string field, empty when unset. -/
structure JSONTestResult where
  testName : String
  description : String
  status : String
  duration : ℚ
  iops : ℚ
  bandwidthMBps : ℚ
  latencyUs : ℚ
  iopsStats : JSONIOPSStats
  bandwidthStats : JSONBandwidthStats
  latencyStats : JSONLatencyStats
  percentiles : JSONPercentiles
  cpuUsage : JSONCPUUsage
  diskUtil : List JSONDiskUtil
  error : String
deriving DecidableEq

/-- The field names that Go's encoding/json actually emits for a
`JSONTestResult` value, following the struct tags: fields without
omitempty are always present; `latency_percentiles` and `cpu_usage` carry
omitempty but are struct-typed, and encoding/json never treats a struct
value as empty, so they are always present too; the slice-typed
`disk_utilization` is dropped when empty, and the string-typed `error`
when it is the empty string. -/
def jsonEmittedFields (t : JSONTestResult) : List String :=
  ["test_name", "description", "status", "duration", "iops", "bandwidth_mbps",
   "latency_us", "iops_stats", "bandwidth_stats", "latency_stats",
   "latency_percentiles", "cpu_usage"]
  ++ (if t.diskUtil = [] then [] else ["disk_utilization"])
  ++ (if t.error = "" then [] else ["error"])

/-- The percentile block of the persisted document (main.go lines
806-824): every canonical label is filled in through `getPercentile`, so
labels absent from the raw map come out as zero. -/
def buildPercentiles (perc : List (String × ℚ)) : JSONPercentiles :=
  ⟨getPercentile perc "1.000000" / 1000,
   getPercentile perc "5.000000" / 1000,
   getPercentile perc "10.000000" / 1000,
   getPercentile perc "20.000000" / 1000,
   getPercentile perc "30.000000" / 1000,
   getPercentile perc "40.000000" / 1000,
   getPercentile perc "50.000000" / 1000,
   getPercentile perc "60.000000" / 1000,
   getPercentile perc "70.000000" / 1000,
   getPercentile perc "80.000000" / 1000,
   getPercentile perc "90.000000" / 1000,
   getPercentile perc "95.000000" / 1000,
   getPercentile perc "99.000000" / 1000,
   getPercentile perc "99.500000" / 1000,
   getPercentile perc "99.900000" / 1000,
   getPercentile perc "99.950000" / 1000,
   getPercentile perc "99.990000" / 1000⟩

/-- The per-result entry built by `saveResultsToJSON` (main.go lines
712-856): base fields always, statistic blocks and percentiles only when
the stored fio job is present (percentiles falling back on `getPercentile`
with a zero default for absent labels), disk utilization when non-empty,
and the error text when the error is non-nil. -/
def buildJSONTestResult (r : TestResult) : JSONTestResult :=
  let t : JSONTestResult :=
    { testName := r.testName
      description := r.description
      status := r.status
      duration := r.duration
      iops := r.totalIOPS
      bandwidthMBps := r.totalBWMBps
      latencyUs := r.avgLatencyUs
      iopsStats := ⟨⟨0, 0, 0, 0, 0⟩, ⟨0, 0, 0, 0, 0⟩, 0⟩
      bandwidthStats := ⟨⟨0, 0, 0, 0⟩, ⟨0, 0, 0, 0⟩, 0⟩
      latencyStats :=
        ⟨⟨⟨0, 0, 0, 0⟩, ⟨0, 0, 0, 0⟩, ⟨0, 0, 0, 0⟩⟩,
         ⟨⟨0, 0, 0, 0⟩, ⟨0, 0, 0, 0⟩, ⟨0, 0, 0, 0⟩⟩⟩
      percentiles := JSONPercentiles.zero
      cpuUsage := ⟨0, 0, 0, 0, 0⟩
      diskUtil := []
      error := "" }
  let t :=
    match r.fioJob with
    | none => t
    | some job =>
      { t with
          iopsStats :=
            { read := ⟨r.readIOPS, job.read.iopsMin, job.read.iopsMax,
                       job.read.iopsMean, job.read.iopsStddev⟩
              write := ⟨r.writeIOPS, job.write.iopsMin, job.write.iopsMax,
                        job.write.iopsMean, job.write.iopsStddev⟩
              total := r.totalIOPS }
          bandwidthStats :=
            { read := ⟨r.readBWMBps, job.read.bwMin / 1024, job.read.bwMax / 1024,
                       job.read.bwMean / 1024⟩
              write := ⟨r.writeBWMBps, job.write.bwMin / 1024, job.write.bwMax / 1024,
                        job.write.bwMean / 1024⟩
              total := r.totalBWMBps }
          latencyStats :=
            { read :=
                ⟨⟨job.read.slat.min / 1000, job.read.slat.max / 1000,
                  job.read.slat.mean / 1000, job.read.slat.stddev / 1000⟩,
                 ⟨job.read.clat.min / 1000, job.read.clat.max / 1000,
                  job.read.clat.mean / 1000, job.read.clat.stddev / 1000⟩,
                 ⟨job.read.latNs.min / 1000, job.read.latNs.max / 1000,
                  job.read.latNs.mean / 1000, job.read.latNs.stddev / 1000⟩⟩
              write :=
                ⟨⟨job.write.slat.min / 1000, job.write.slat.max / 1000,
                  job.write.slat.mean / 1000, job.write.slat.stddev / 1000⟩,
                 ⟨job.write.clat.min / 1000, job.write.clat.max / 1000,
                  job.write.clat.mean / 1000, job.write.clat.stddev / 1000⟩,
                 ⟨job.write.latNs.min / 1000, job.write.latNs.max / 1000,
                  job.write.latNs.mean / 1000, job.write.latNs.stddev / 1000⟩⟩ }
          percentiles :=
            if job.read.clat.percentile ≠ [] then
              buildPercentiles job.read.clat.percentile
            else t.percentiles
          cpuUsage := ⟨job.usrCPU, job.sysCPU, job.ctx, job.majF, job.minF⟩ }
  let t :=
    if r.diskUtil ≠ [] then
      { t with
          diskUtil := r.diskUtil.map fun d =>
            ⟨d.name, d.readIOs, d.writeIOs, d.readSectors, d.writeSectors, d.util⟩ }
    else t
  match r.error with
  | some e => { t with error := e }
  | none => t

/-- The complete persisted document (Go struct `JSONResults`). -/
structure JSONResults where
  summary : JSONSummary
  testResults : List JSONTestResult
  performanceHighlights : JSONPerformanceHighlights
deriving DecidableEq

/-- The pure value computed by `saveResultsToJSON` (main.go lines 648-872)
before it is marshalled and written to disk: summary counts, the mapped
per-test entries, and the three highlights taken from the scan. -/
def saveResultsToJSON (results : List TestResult) : JSONResults :=
  let hl := findHighlights results
  { summary :=
      { totalTests := results.length
        passed := (results.filter (fun r => r.status = "PASSED")).length
        failed := (results.filter (fun r => ¬ r.status = "PASSED")).length
        totalDuration := (results.map (fun r => r.duration)).sum }
    testResults := results.map buildJSONTestResult
    performanceHighlights :=
      { highestIOPS := ⟨hl.maxIOPS.testName, hl.maxIOPS.totalIOPS, "iops"⟩
        highestBandwidth := ⟨hl.maxBW.testName, hl.maxBW.totalBWMBps, "MB/s"⟩
        lowestLatency := ⟨hl.minLatency.testName, hl.minLatency.avgLatencyUs, "μs"⟩ } }

/-- All-zero latency record, used to build concrete raw measurements. -/
def FioLatNs.zero : FioLatNs := ⟨0, 0, 0, 0, []⟩

/-- All-zero completion-latency record. -/
def FioClat.zero : FioClat := ⟨0, 0, 0, 0, []⟩

/-- All-zero sync record. -/
def FioSync.zero : FioSync := ⟨FioLatNs.zero⟩

/-- All-zero direction record. -/
def FioIOStats.zero : FioIOStats :=
  ⟨0, 0, 0, 0, 0, 0, 0, 0, FioLatNs.zero, FioClat.zero, FioLatNs.zero, 0, 0, 0, 0⟩

/-- All-zero job record. -/
def FioJobResult.zero : FioJobResult :=
  ⟨"", FioIOStats.zero, FioIOStats.zero, FioSync.zero, 0, 0, 0, 0, 0, [], []⟩

/-- Raw job with no completed I/O in either direction (zero IOPS) but
non-zero mean total latencies: 7000 ns read, 9000 ns write. -/
def c1Job : FioJobResult :=
  { FioJobResult.zero with
      read := { FioIOStats.zero with latNs := { FioLatNs.zero with mean := 7000 } }
      write := { FioIOStats.zero with latNs := { FioLatNs.zero with mean := 9000 } } }

/-- Normalized result of `c1Job`. -/
def c1Res : TestResult :=
  extractMetrics (initResult "t" "d" 0) ⟨"fio-3.38", [c1Job], []⟩

/-- Raw job with both directions exercised: read IOPS 2 with 4000 ns mean
latency, write IOPS 3 with 6000 ns mean latency. -/
def c1wJob : FioJobResult :=
  { FioJobResult.zero with
      read := { FioIOStats.zero with
                  iops := 2
                  latNs := { FioLatNs.zero with mean := 4000 } }
      write := { FioIOStats.zero with
                   iops := 3
                   latNs := { FioLatNs.zero with mean := 6000 } } }

/-- A failed result, as a concrete aggregation input. -/
def c2wFailed : TestResult :=
  { TestResult.zero with status := "FAILED", error := some "fio command failed: exit status 1" }

/-- Raw job whose completion-percentile map contains only the median
label, 1000 ns. -/
def c3Job : FioJobResult :=
  { FioJobResult.zero with
      read := { FioIOStats.zero with
                  clat := { FioClat.zero with percentile := [("50.000000", 1000)] } } }

/-- A passed result carrying `c3Job`. -/
def c3Res : TestResult :=
  { TestResult.zero with status := "PASSED", fioJob := some c3Job }

/-- The result `runTest` produces when the fio command itself fails. -/
def c6Failed : TestResult :=
  (runTest "t" "d" 5 (.err "exit status 1") (.err "unused")).1

/-- A failed result with a non-empty error description. -/
def c6wFailed : TestResult :=
  { TestResult.zero with status := "FAILED", error := some "boom" }

/-- Passed result named a with zero combined IOPS. -/
def c7A : TestResult :=
  { TestResult.zero with testName := "a", status := "PASSED" }

/-- Passed result named b with zero combined IOPS. -/
def c7B : TestResult :=
  { TestResult.zero with testName := "b", status := "PASSED" }

/-- Passed result named a with combined IOPS 5. -/
def c7wA : TestResult :=
  { TestResult.zero with testName := "a", status := "PASSED", totalIOPS := 5 }

/-- Passed result named b with combined IOPS 5, tied with `c7wA`. -/
def c7wB : TestResult :=
  { TestResult.zero with testName := "b", status := "PASSED", totalIOPS := 5 }

/-- Raw job of the numerical scenario: read IOPS 738406, zero write IOPS,
read bandwidth 3024000000 bytes/sec. -/
def c9Job : FioJobResult :=
  { FioJobResult.zero with
      read := { FioIOStats.zero with iops := 738406, bwBytes := 3024000000 } }

/-- Normalized result of `c9Job`. -/
def c9Res : TestResult :=
  extractMetrics (initResult "t" "d" 0) ⟨"fio-3.38", [c9Job], []⟩

/-- A result that is not PASSED leaves the highlight accumulator unchanged. -/
theorem highlightStep_not_passed (acc : HighlightAcc) (r : TestResult)
    (h : ¬ r.status = "PASSED") : highlightStep acc r = acc := by
  simp [highlightStep, h]

/-- Scanning a sequence without PASSED results keeps the accumulator. -/
theorem foldl_highlightStep_not_passed :
    ∀ (l : List TestResult) (acc : HighlightAcc),
      (∀ r ∈ l, ¬ r.status = "PASSED") → l.foldl highlightStep acc = acc
  | [], _, _ => rfl
  | r :: rs, acc, h => by
    rw [List.foldl_cons, highlightStep_not_passed acc r (h r (List.mem_cons_self r rs))]
    exact foldl_highlightStep_not_passed rs acc fun x hx => h x (List.mem_cons_of_mem r hx)

/-- One step of the joint scan projects to one step of the IOPS scan. -/
theorem highlightStep_maxIOPS (acc : HighlightAcc) (r : TestResult) :
    (highlightStep acc r).maxIOPS = iopsStep acc.maxIOPS r := by
  by_cases hp : r.status = "PASSED"
  · by_cases hlt : acc.maxIOPS.totalIOPS < r.totalIOPS <;>
      simp [highlightStep, iopsStep, hp, hlt]
  · simp [highlightStep, iopsStep, hp]

/-- The joint scan's highest-IOPS component is the IOPS scan. -/
theorem foldl_maxIOPS :
    ∀ (l : List TestResult) (acc : HighlightAcc),
      (l.foldl highlightStep acc).maxIOPS = l.foldl iopsStep acc.maxIOPS
  | [], _ => rfl
  | r :: rs, acc => by
    rw [List.foldl_cons, List.foldl_cons, foldl_maxIOPS rs (highlightStep acc r),
      highlightStep_maxIOPS]

/-- One step of the joint scan projects to one step of the latency scan. -/
theorem highlightStep_minLatency (acc : HighlightAcc) (r : TestResult) :
    (highlightStep acc r).minLatency = latStep acc.minLatency r := by
  by_cases hp : r.status = "PASSED"
  · by_cases hlt : r.avgLatencyUs < acc.minLatency.avgLatencyUs ∧ 0 < r.avgLatencyUs <;>
      simp [highlightStep, latStep, hp, hlt]
  · simp [highlightStep, latStep, hp]

/-- The joint scan's lowest-latency component is the latency scan. -/
theorem foldl_minLatency :
    ∀ (l : List TestResult) (acc : HighlightAcc),
      (l.foldl highlightStep acc).minLatency = l.foldl latStep acc.minLatency
  | [], _ => rfl
  | r :: rs, acc => by
    rw [List.foldl_cons, List.foldl_cons, foldl_minLatency rs (highlightStep acc r),
      highlightStep_minLatency]

/-- The IOPS scan either keeps its starting candidate or returns a PASSED
element of the sequence. -/
theorem foldl_iopsStep_mem :
    ∀ (l : List TestResult) (acc : TestResult),
      l.foldl iopsStep acc = acc ∨
        (l.foldl iopsStep acc ∈ l ∧ (l.foldl iopsStep acc).status = "PASSED")
  | [], _ => Or.inl rfl
  | r :: rs, acc => by
    rw [List.foldl_cons]
    rcases foldl_iopsStep_mem rs (iopsStep acc r) with h | ⟨hm, hp⟩
    · rw [h]
      by_cases hc : r.status = "PASSED" ∧ acc.totalIOPS < r.totalIOPS
      · rw [iopsStep, if_pos hc]
        exact Or.inr ⟨List.mem_cons_self r rs, hc.1⟩
      · rw [iopsStep, if_neg hc]
        exact Or.inl rfl
    · exact Or.inr ⟨List.mem_cons_of_mem r hm, hp⟩

/-- If no PASSED element strictly beats the candidate's combined IOPS,
the IOPS scan keeps the candidate. -/
theorem foldl_iopsStep_keep :
    ∀ (l : List TestResult) (acc : TestResult),
      (∀ r ∈ l, r.status = "PASSED" → r.totalIOPS ≤ acc.totalIOPS) →
      l.foldl iopsStep acc = acc
  | [], _, _ => rfl
  | r :: rs, acc, h => by
    have hr : iopsStep acc r = acc := by
      rw [iopsStep, if_neg]
      rintro ⟨hp, hlt⟩
      exact absurd hlt (not_lt.mpr (h r (List.mem_cons_self r rs) hp))
    rw [List.foldl_cons, hr]
    exact foldl_iopsStep_keep rs acc fun x hx hp => h x (List.mem_cons_of_mem r hx) hp

/-- The latency scan either keeps its starting candidate or returns a
PASSED element of the sequence whose combined latency is strictly
positive. -/
theorem foldl_latStep_mem :
    ∀ (l : List TestResult) (acc : TestResult),
      l.foldl latStep acc = acc ∨
        (l.foldl latStep acc ∈ l ∧ (l.foldl latStep acc).status = "PASSED" ∧
          0 < (l.foldl latStep acc).avgLatencyUs)
  | [], _ => Or.inl rfl
  | r :: rs, acc => by
    rw [List.foldl_cons]
    rcases foldl_latStep_mem rs (latStep acc r) with h | ⟨hm, hp⟩
    · rw [h]
      by_cases hc : r.status = "PASSED" ∧ (r.avgLatencyUs < acc.avgLatencyUs ∧ 0 < r.avgLatencyUs)
      · rw [latStep, if_pos hc]
        exact Or.inr ⟨List.mem_cons_self r rs, hc.1, hc.2.2⟩
      · rw [latStep, if_neg hc]
        exact Or.inl rfl
    · exact Or.inr ⟨List.mem_cons_of_mem r hm, hp⟩

/-- The status, the three combined top-level metrics and the error string
of a persisted entry do not depend on the conditionally-populated blocks. -/
theorem buildJSONTestResult_base_fields (r : TestResult) :
    (buildJSONTestResult r).status = r.status ∧
    (buildJSONTestResult r).iops = r.totalIOPS ∧
    (buildJSONTestResult r).bandwidthMBps = r.totalBWMBps ∧
    (buildJSONTestResult r).latencyUs = r.avgLatencyUs ∧
    (buildJSONTestResult r).error = (match r.error with | some e => e | none => "") := by
  unfold buildJSONTestResult
  cases r.fioJob <;> rcases r.error with _ | e <;> by_cases h : r.diskUtil = [] <;>
    simp [h]

/-- The percentile block of a persisted entry whose fio job is present. -/
theorem buildJSONTestResult_percentiles (r : TestResult) (job : FioJobResult)
    (hjob : r.fioJob = some job) :
    (buildJSONTestResult r).percentiles =
      if job.read.clat.percentile ≠ [] then buildPercentiles job.read.clat.percentile
      else JSONPercentiles.zero := by
  unfold buildJSONTestResult
  rw [hjob]
  rcases r.error with _ | e <;> by_cases h : r.diskUtil = [] <;> simp [h]

/-- C1 (counterexample): a raw measurement in which both directions carry a
non-zero (present) mean latency — 7 us read, 9 us write — but no completed
I/O, normalizes to a combined latency of 9 us, the write-side value, not
the arithmetic mean 8 us of the two present latencies: the code keys the
combination on per-direction IOPS, not on latency presence. -/
theorem c1_latency_presence_counterexample :
    c1Res.readLatencyUs = 7 ∧ c1Res.writeLatencyUs = 9 ∧
    c1Res.readLatencyUs ≠ 0 ∧ c1Res.writeLatencyUs ≠ 0 ∧
    c1Res.avgLatencyUs = 9 ∧
    c1Res.avgLatencyUs ≠ (c1Res.readLatencyUs + c1Res.writeLatencyUs) / 2 := by
  norm_num [c1Res, c1Job, extractMetrics, initResult, TestResult.zero,
    FioJobResult.zero, FioIOStats.zero, FioLatNs.zero, FioClat.zero, FioSync.zero]

/-- C4: evaluating `runTest` at the failing input — the fio command
succeeds and its output parses, but the jobs list is empty — yields a
FAILED result whose error is nil (no error description anywhere), with all
numeric metric fields zero. -/
theorem c4_empty_jobs_failed_without_error :
    ((runTest "t" "d" 3 .ok (.ok ⟨"fio-3.38", [], []⟩)).1.status = "FAILED") ∧
    ((runTest "t" "d" 3 .ok (.ok ⟨"fio-3.38", [], []⟩)).1.error = none) ∧
    ((runTest "t" "d" 3 .ok (.ok ⟨"fio-3.38", [], []⟩)).1.totalIOPS = 0) ∧
    ((runTest "t" "d" 3 .ok (.ok ⟨"fio-3.38", [], []⟩)).1.totalBWMBps = 0) ∧
    ((runTest "t" "d" 3 .ok (.ok ⟨"fio-3.38", [], []⟩)).1.avgLatencyUs = 0) := by
  decide

/-- C5: the temporary raw-measurement file is not deleted on the failure
exit paths of `runTest` — when the fio command fails, or when its output
fails to parse, the function returns before reaching the remove call; only
the success path deletes the file. -/
theorem c5_failure_paths_leak_tmpfile :
    ((runTest "t" "d" 3 (.err "exit status 1") (.err "unused")).2 = false) ∧
    ((runTest "t" "d" 3 .ok (.err "unexpected end of JSON input")).2 = false) ∧
    ((runTest "t" "d" 3 .ok (.ok ⟨"fio-3.38", [], []⟩)).2 = true) := by
  decide

/-- C9 (counterexample): normalizing read bandwidth 3024000000 bytes/sec
gives exactly 2953125/1024 = 2883.9111... MB/s, which exceeds the claimed
approximate value 2883.79 by more than 0.1 — far beyond two-decimal
rounding. -/
theorem c9_bandwidth_counterexample :
    c9Res.readBWMBps = 2953125 / 1024 ∧
    288379 / 100 + 1 / 10 < c9Res.readBWMBps := by
  norm_num [c9Res, c9Job, extractMetrics, initResult, TestResult.zero,
    FioJobResult.zero, FioIOStats.zero, FioLatNs.zero, FioClat.zero, FioSync.zero]

/-- C9 (amended): the scenario raw measurement normalizes to ReadIOPS
738406, TotalIOPS 738406, and read bandwidth exactly 2953125/1024 MB/s,
which lies strictly between 2883.91 and 2883.92 (so approximately 2883.91,
not 2883.79). -/
theorem c9_normalization_scenario :
    c9Res.readIOPS = 738406 ∧ c9Res.totalIOPS = 738406 ∧
    c9Res.readBWMBps = 2953125 / 1024 ∧
    288391 / 100 < c9Res.readBWMBps ∧ c9Res.readBWMBps < 288392 / 100 := by
  norm_num [c9Res, c9Job, extractMetrics, initResult, TestResult.zero,
    FioJobResult.zero, FioIOStats.zero, FioLatNs.zero, FioClat.zero, FioSync.zero]

/-- C10: metrics are taken exclusively from the first entry of the jobs
list — replacing every later job entry (and the version string) leaves the
normalized result unchanged — and a parsed document with an empty jobs
list leaves the result with FAILED status. -/
theorem c10_first_job_only :
    (∀ (name desc fv fv' : String) (dur : ℚ) (job : FioJobResult)
        (rest rest' : List FioJobResult) (du : List FioDiskUtil),
      extractMetrics (initResult name desc dur) ⟨fv, job :: rest, du⟩ =
        extractMetrics (initResult name desc dur) ⟨fv', job :: rest', du⟩) ∧
    (∀ (name desc fv : String) (dur : ℚ) (du : List FioDiskUtil),
      (runTest name desc dur .ok (.ok ⟨fv, [], du⟩)).1.status = "FAILED") := by
  exact ⟨fun _ _ _ _ _ _ _ _ _ => rfl, fun _ _ _ _ _ => rfl⟩

/-- C1 (amended): the combined latency of a normalized result is keyed on
the presence of I/O per direction (IOPS strictly positive), not on latency
presence: when both directions completed I/O it is the arithmetic mean of
the two per-direction latencies in microseconds; when only the read
direction did, it is the read latency; otherwise it is the write latency —
which is zero when no write latency was measured, zero being the marker
the lowest-latency comparison excludes downstream. -/
theorem c1_combined_latency_iops_keyed (name desc fv : String) (dur : ℚ)
    (job : FioJobResult) (rest : List FioJobResult) (du : List FioDiskUtil) :
    (0 < job.read.iops → 0 < job.write.iops →
      (extractMetrics (initResult name desc dur) ⟨fv, job :: rest, du⟩).avgLatencyUs
        = (job.read.latNs.mean / 1000 + job.write.latNs.mean / 1000) / 2) ∧
    (0 < job.read.iops → ¬ 0 < job.write.iops →
      (extractMetrics (initResult name desc dur) ⟨fv, job :: rest, du⟩).avgLatencyUs
        = job.read.latNs.mean / 1000) ∧
    (¬ 0 < job.read.iops →
      (extractMetrics (initResult name desc dur) ⟨fv, job :: rest, du⟩).avgLatencyUs
        = job.write.latNs.mean / 1000) := by
  refine ⟨fun h1 h2 => ?_, fun h1 h2 => ?_, fun h1 => ?_⟩ <;>
    show (if 0 < job.read.iops ∧ 0 < job.write.iops
          then (job.read.latNs.mean / 1000 + job.write.latNs.mean / 1000) / 2
          else if 0 < job.read.iops then job.read.latNs.mean / 1000
          else job.write.latNs.mean / 1000) = _
  · rw [if_pos ⟨h1, h2⟩]
  · rw [if_neg (fun hc => h2 hc.2), if_pos h1]
  · rw [if_neg (fun hc => h1 hc.1), if_neg h1]

/-- Witness for C1 (amended): a job with read IOPS 2, write IOPS 3 and
mean latencies 4 us and 6 us normalizes to the mean combined latency. -/
theorem c1_combined_latency_iops_keyed_witness :
    (extractMetrics (initResult "t" "d" 0) ⟨"fio-3.38", [c1wJob], []⟩).avgLatencyUs
      = (c1wJob.read.latNs.mean / 1000 + c1wJob.write.latNs.mean / 1000) / 2 :=
  (c1_combined_latency_iops_keyed "t" "d" "fio-3.38" 0 c1wJob [] []).1
    (by norm_num [c1wJob, FioJobResult.zero, FioIOStats.zero, FioLatNs.zero,
      FioClat.zero, FioSync.zero])
    (by norm_num [c1wJob, FioJobResult.zero, FioIOStats.zero, FioLatNs.zero,
      FioClat.zero, FioSync.zero])

/-- C2 (counterexample): aggregating an empty result sequence (which has
zero PASSED results) yields passed = 0 and an empty test reference, but
the lowest-latency highlight's value is the untouched sentinel 999999999,
not zero. -/
theorem c2_sentinel_latency_counterexample :
    (saveResultsToJSON []).summary.passed = 0 ∧
    (saveResultsToJSON []).performanceHighlights.lowestLatency.testName = "" ∧
    (saveResultsToJSON []).performanceHighlights.lowestLatency.value = 999999999 ∧
    (saveResultsToJSON []).performanceHighlights.lowestLatency.value ≠ 0 := by
  refine ⟨rfl, rfl, rfl, ?_⟩
  show (999999999 : ℚ) ≠ 0
  norm_num

/-- C2 (amended): for a sequence with zero PASSED results the aggregation
is total (no failure), reports passed = 0, and gives the highest-IOPS and
highest-bandwidth highlights an empty test reference and zero value; the
lowest-latency highlight carries an empty test reference and the sentinel
value 999999999 rather than zero. -/
theorem c2_no_passed_results (results : List TestResult)
    (h : ∀ r ∈ results, ¬ r.status = "PASSED") :
    (saveResultsToJSON results).summary.passed = 0 ∧
    (saveResultsToJSON results).performanceHighlights.highestIOPS = ⟨"", 0, "iops"⟩ ∧
    (saveResultsToJSON results).performanceHighlights.highestBandwidth = ⟨"", 0, "MB/s"⟩ ∧
    (saveResultsToJSON results).performanceHighlights.lowestLatency = ⟨"", 999999999, "μs"⟩ := by
  have hfold : findHighlights results = highlightInit :=
    foldl_highlightStep_not_passed results highlightInit h
  have hfilter : results.filter (fun r => r.status = "PASSED") = [] := by
    rw [List.filter_eq_nil_iff]
    intro a ha
    simpa using h a ha
  refine ⟨?_, ?_, ?_, ?_⟩
  · show (results.filter (fun r => r.status = "PASSED")).length = 0
    rw [hfilter]
    rfl
  · show (⟨(findHighlights results).maxIOPS.testName,
          (findHighlights results).maxIOPS.totalIOPS, "iops"⟩ : JSONHighlight) = _
    rw [hfold]
    rfl
  · show (⟨(findHighlights results).maxBW.testName,
          (findHighlights results).maxBW.totalBWMBps, "MB/s"⟩ : JSONHighlight) = _
    rw [hfold]
    rfl
  · show (⟨(findHighlights results).minLatency.testName,
          (findHighlights results).minLatency.avgLatencyUs, "μs"⟩ : JSONHighlight) = _
    rw [hfold]
    rfl

/-- Witness for C2 (amended): a single failed result. -/
theorem c2_no_passed_results_witness :
    (saveResultsToJSON [c2wFailed]).summary.passed = 0 :=
  (c2_no_passed_results [c2wFailed] (by decide)).1

/-- C3 (counterexample): a passed result whose raw percentile map holds
only the median label makes the persisted document emit the percentile
block with p1 = 0, a synthesized zero for a label absent from the raw
mapping. -/
theorem c3_synthesized_zero_counterexample :
    c3Job.read.clat.percentile.lookup "1.000000" = none ∧
    c3Job.read.clat.percentile ≠ [] ∧
    "latency_percentiles" ∈ jsonEmittedFields (buildJSONTestResult c3Res) ∧
    (buildJSONTestResult c3Res).percentiles.p1 = 0 ∧
    (buildJSONTestResult c3Res).percentiles.p50 = 1 := by
  refine ⟨by decide, by decide, by decide, ?_, ?_⟩
  · have h : getPercentile c3Job.read.clat.percentile "1.000000" = 0 := by decide
    show getPercentile c3Job.read.clat.percentile "1.000000" / 1000 = 0
    rw [h]
    norm_num
  · have h : getPercentile c3Job.read.clat.percentile "50.000000" = 1000 := by decide
    show getPercentile c3Job.read.clat.percentile "50.000000" / 1000 = 1
    rw [h]
    norm_num

/-- C3 (amended): the interactive percentile table renders a subset of the
canonical label list, drawing only labels present in the raw mapping with
their values converted to microseconds; the persisted document, in
contrast, always carries the percentile block, and an absent label's field
is zero there. -/
theorem c3_percentile_views (percentile : List (String × ℚ)) (r : TestResult)
    (job : FioJobResult) (hjob : r.fioJob = some job) :
    (∀ pr ∈ displayPercentileRows percentile,
      pr.1 ∈ percentileLabels ∧
        ∃ raw, percentile.lookup pr.1 = some raw ∧ pr.2 = raw / 1000) ∧
    "latency_percentiles" ∈ jsonEmittedFields (buildJSONTestResult r) ∧
    (job.read.clat.percentile.lookup "1.000000" = none →
      (buildJSONTestResult r).percentiles.p1 = 0) := by
  refine ⟨fun pr hpr => ?_, ?_, fun hnone => ?_⟩
  · rw [displayPercentileRows] at hpr
    obtain ⟨p, hp, hf⟩ := List.mem_filterMap.mp hpr
    rcases hlook : percentile.lookup p with _ | val
    · rw [hlook] at hf
      cases hf
    · rw [hlook] at hf
      injection hf with hf
      subst hf
      exact ⟨hp, val, hlook, rfl⟩
  · simp [jsonEmittedFields]
  · rw [buildJSONTestResult_percentiles r job hjob]
    by_cases hne : job.read.clat.percentile = []
    · simp [hne, JSONPercentiles.zero]
    · rw [if_pos hne]
      show getPercentile job.read.clat.percentile "1.000000" / 1000 = 0
      rw [getPercentile, hnone]
      norm_num

/-- Witness for C3 (amended): a one-entry raw map containing the median
label produces a rendered row with the label and its microsecond value. -/
theorem c3_percentile_views_witness :
    ("50.000000" : String) ∈ percentileLabels ∧
    ∃ raw, ([(("50.000000" : String), (2000 : ℚ))].lookup "50.000000") = some raw ∧
      (2 : ℚ) = raw / 1000 :=
  (c3_percentile_views [("50.000000", 2000)] c3Res c3Job rfl).1 ("50.000000", 2)
    (by norm_num [displayPercentileRows, percentileLabels, List.lookup])

/-- C6 (counterexample): for the failed result produced when the fio
command fails, the persisted entry still emits the numeric metric fields
iops, bandwidth_mbps and latency_us — as zeros — rather than omitting
them. -/
theorem c6_zeros_in_persisted_counterexample :
    c6Failed.status = "FAILED" ∧
    c6Failed.error = some "fio command failed: exit status 1" ∧
    "iops" ∈ jsonEmittedFields (buildJSONTestResult c6Failed) ∧
    (buildJSONTestResult c6Failed).iops = 0 ∧
    "bandwidth_mbps" ∈ jsonEmittedFields (buildJSONTestResult c6Failed) ∧
    (buildJSONTestResult c6Failed).bandwidthMBps = 0 ∧
    "latency_us" ∈ jsonEmittedFields (buildJSONTestResult c6Failed) ∧
    (buildJSONTestResult c6Failed).latencyUs = 0 := by
  decide

/-- C6 (amended): for a non-PASSED result the interactive comparison row
is marked with the cross and shows dashes in place of all three numeric
metric columns but carries no error text, while the per-test interactive
block carries the error description when present; the persisted entry
carries the FAILED status and the error text but emits the numeric metric
fields with their (zero) values instead of omitting them. -/
theorem c6_failed_rendering (r : TestResult) (hfail : ¬ r.status = "PASSED") :
    (displaySummaryRow r).statusMark = "❌" ∧
    (displaySummaryRow r).iops = MetricCell.dash ∧
    (displaySummaryRow r).bw = MetricCell.dash ∧
    (displaySummaryRow r).lat = MetricCell.dash ∧
    (buildJSONTestResult r).status = r.status ∧
    "iops" ∈ jsonEmittedFields (buildJSONTestResult r) ∧
    "latency_us" ∈ jsonEmittedFields (buildJSONTestResult r) ∧
    (buildJSONTestResult r).iops = r.totalIOPS ∧
    (buildJSONTestResult r).latencyUs = r.avgLatencyUs ∧
    (∀ e, r.error = some e →
      (buildJSONTestResult r).error = e ∧
      displayFailedBlock r = [("Status", "❌ " ++ r.status), ("Error", e)]) := by
  obtain ⟨hs, hi, hb, hl, he⟩ := buildJSONTestResult_base_fields r
  refine ⟨?_, ?_, ?_, ?_, hs, ?_, ?_, hi, hl, fun e herr => ⟨?_, ?_⟩⟩
  · simp [displaySummaryRow, hfail]
  · simp [displaySummaryRow, hfail]
  · simp [displaySummaryRow, hfail]
  · simp [displaySummaryRow, hfail]
  · simp [jsonEmittedFields]
  · simp [jsonEmittedFields]
  · rw [he, herr]
  · simp [displayFailedBlock, herr]

/-- Witness for C6 (amended): a concrete failed result with error text. -/
theorem c6_failed_rendering_witness :
    (displaySummaryRow c6wFailed).iops = MetricCell.dash ∧
    (buildJSONTestResult c6wFailed).error = "boom" := by
  obtain ⟨h1, h2, h3, h4, h5, h6, h7, h8, h9, h10⟩ :=
    c6_failed_rendering c6wFailed (by decide)
  exact ⟨h2, (h10 "boom" rfl).1⟩

/-- C7 (counterexample): two PASSED results named a and b share the
identical maximal combined IOPS 0, yet the highest-IOPS highlight keeps
the zero-valued initial candidate with its empty test name — it selects
neither, in particular not the earlier one. -/
theorem c7_zero_iops_tie_counterexample :
    c7A.status = "PASSED" ∧ c7B.status = "PASSED" ∧
    c7A.totalIOPS = c7B.totalIOPS ∧
    c7A.testName = "a" ∧
    (saveResultsToJSON [c7A, c7B]).performanceHighlights.highestIOPS.testName = "" := by
  decide

/-- C7 (amended): when two PASSED results are tied at the maximal combined
IOPS of the sequence and that maximum is strictly positive, the
highest-IOPS highlight selects the one appearing earlier (single
left-to-right scan with a strict greater-than comparison); a zero maximum
instead leaves the empty initial candidate. -/
theorem c7_highest_iops_tie (l1 l2 l3 : List TestResult) (a b : TestResult)
    (ha : a.status = "PASSED") (hb : b.status = "PASSED")
    (hab : b.totalIOPS = a.totalIOPS) (hpos : 0 < a.totalIOPS)
    (h1 : ∀ r ∈ l1, r.status = "PASSED" → r.totalIOPS < a.totalIOPS)
    (h2 : ∀ r ∈ l2 ++ l3, r.status = "PASSED" → r.totalIOPS ≤ a.totalIOPS) :
    (findHighlights (l1 ++ a :: (l2 ++ b :: l3))).maxIOPS = a ∧
    (saveResultsToJSON (l1 ++ a :: (l2 ++ b :: l3))).performanceHighlights.highestIOPS.testName
      = a.testName := by
  have hmain : (findHighlights (l1 ++ a :: (l2 ++ b :: l3))).maxIOPS = a := by
    rw [findHighlights, foldl_maxIOPS, List.foldl_append, List.foldl_cons]
    have hlt : (l1.foldl iopsStep highlightInit.maxIOPS).totalIOPS < a.totalIOPS := by
      rcases foldl_iopsStep_mem l1 highlightInit.maxIOPS with h | ⟨hm, hp⟩
      · rw [h]
        exact hpos
      · exact h1 _ hm hp
    have hstep : iopsStep (l1.foldl iopsStep highlightInit.maxIOPS) a = a := by
      rw [iopsStep, if_pos ⟨ha, hlt⟩]
    rw [hstep]
    apply foldl_iopsStep_keep
    intro r hr hp
    rcases List.mem_append.mp hr with hml | hmr
    · exact h2 r (List.mem_append.mpr (Or.inl hml)) hp
    · rcases List.mem_cons.mp hmr with rfl | hmr
      · exact le_of_eq hab
      · exact h2 r (List.mem_append.mpr (Or.inr hmr)) hp
  refine ⟨hmain, ?_⟩
  show (findHighlights (l1 ++ a :: (l2 ++ b :: l3))).maxIOPS.testName = a.testName
  rw [hmain]

/-- Witness for C7 (amended): two PASSED results tied at combined IOPS 5;
the earlier one, named a, wins. -/
theorem c7_highest_iops_tie_witness :
    (findHighlights [c7wA, c7wB]).maxIOPS = c7wA :=
  (c7_highest_iops_tie [] [] [] c7wA c7wB rfl rfl rfl (by decide)
    (by simp) (by simp)).1

/-- C8: the lowest-latency highlight is either the untouched initial
candidate (the sentinel, when no result qualifies) or a PASSED element of
the sequence whose combined latency is strictly positive — a result with
zero (undefined) combined latency never wins, and the persisted highlight
is exactly this candidate's name and value. -/
theorem c8_lowest_latency_only_passed_positive (results : List TestResult) :
    ((findHighlights results).minLatency = highlightInit.minLatency ∨
      ((findHighlights results).minLatency ∈ results ∧
        (findHighlights results).minLatency.status = "PASSED" ∧
        0 < (findHighlights results).minLatency.avgLatencyUs)) ∧
    (saveResultsToJSON results).performanceHighlights.lowestLatency =
      ⟨(findHighlights results).minLatency.testName,
       (findHighlights results).minLatency.avgLatencyUs, "μs"⟩ := by
  constructor
  · rw [findHighlights, foldl_minLatency]
    exact foldl_latStep_mem results highlightInit.minLatency
  · rfl

end FioQA
